import Mathlib

/-!
Shallow embedding of the herb-information extraction pipeline
(`src/agents/herbs_info_extraction.py`): a three-stage prompt chain
(extract, validate, re-extract) over a fixed 16-field schema.

The text-generation service is modelled as an oracle
`Oracle : String → Except String String`: applied to the fully formatted
prompt it either returns the completion text (`Except.ok`) or raises
(`Except.error`), matching the `try/except` structure of the Python code.
Python float confidence constants (0.0, 0.3, 0.9) are modelled as the exact
rationals 0, 3/10, 9/10: the program only stores and compares them, never
does float arithmetic on them.
-/

/-- Status indicator for extracted fields (class `ExtractionStatus`). -/
inductive ExtractionStatus where
  | COMPLETE
  | PARTIAL
  | MISSING
deriving DecidableEq

/-- Validation result for a single field (dataclass `FieldValidation`). -/
structure FieldValidation where
  field_name : String
  value : String
  status : ExtractionStatus
  confidence : Rat
deriving DecidableEq

/-- Container for extracted herb information (dataclass `HerbExtractionResult`):
exactly the 16 schema fields, each a string. -/
structure HerbExtractionResult where
  title : String
  authors : String
  year : String
  scientific_name : String
  medicinal_use : String
  biological_activity : String
  dose : String
  phytochemicals : String
  plant_part_used : String
  formulation : String
  botanic_description : String
  toxicity : String
  adverse_reactions : String
  health_benefits : String
  nutritional_benefits : String
  reference : String
deriving DecidableEq

/-- `HerbExtractionResult.to_dict`: the record as an ordered key/value list,
in dataclass field order (Python `asdict` preserves declaration order). -/
def HerbExtractionResult.to_dict (r : HerbExtractionResult) : List (String × String) :=
  [("title", r.title), ("authors", r.authors), ("year", r.year),
   ("scientific_name", r.scientific_name), ("medicinal_use", r.medicinal_use),
   ("biological_activity", r.biological_activity), ("dose", r.dose),
   ("phytochemicals", r.phytochemicals), ("plant_part_used", r.plant_part_used),
   ("formulation", r.formulation), ("botanic_description", r.botanic_description),
   ("toxicity", r.toxicity), ("adverse_reactions", r.adverse_reactions),
   ("health_benefits", r.health_benefits), ("nutritional_benefits", r.nutritional_benefits),
   ("reference", r.reference)]

/-- The schema's 16 field names, in declaration order. -/
def field_names : List String :=
  ["title", "authors", "year", "scientific_name", "medicinal_use",
   "biological_activity", "dose", "phytochemicals", "plant_part_used",
   "formulation", "botanic_description", "toxicity", "adverse_reactions",
   "health_benefits", "nutritional_benefits", "reference"]

/-- The generation service: prompt text in, completion out, or an exception. -/
abbrev Oracle := String → Except String String

/-- Python `str.strip()`: drop leading and trailing whitespace (computable by
the kernel, unlike `String.trim`). -/
def pyStrip (s : String) : String :=
  String.mk (((s.data.dropWhile Char.isWhitespace).reverse.dropWhile Char.isWhitespace).reverse)

/-- Python `str.lower()` (ASCII case folding suffices for the markers used). -/
def pyLower (s : String) : String :=
  String.mk (s.data.map Char.toLower)

/-- `ChatPromptTemplate.from_template(t)` followed by `invoke` substitutes the
document text for the single `{text}` placeholder of the template. -/
def formatPrompt (template text : String) : String :=
  template.replace "{text}" text

/-- The per-field primary extraction prompt templates, in the order of the
`extraction_prompts` dict of `extract_initial_information`. -/
def extraction_prompts : List (String × String) :=
  [("title", "Extract the full title of the research paper from the following text. If not available, respond with \x27Not available\x27:\n\n{text}"),
   ("authors", "Extract all authors of the research paper from the following text, separated by commas. If not available, respond with \x27Not available\x27:\n\n{text}"),
   ("year", "Extract the year of publication from the following text. If not available, respond with \x27Not available\x27:\n\n{text}"),
   ("scientific_name", "Extract all scientific names of medicinal plants mentioned in the following text. List them all. If not available, respond with \x27Not mentioned\x27:\n\n{text}"),
   ("medicinal_use", "Extract any medicinal uses mentioned in the following text, i.e., the application of herbs to prevent, diagnose, treat, or manage diseases. If not available, respond with \x27Not mentioned\x27:\n\n{text}"),
   ("biological_activity", "Describe the biological activities of the medicinal plants mentioned in detail from the following text. If not covered, respond with \x27Not mentioned\x27:\n\n{text}"),
   ("dose", "Extract any dosage information including amounts and units from the following text. If not mentioned, respond with \x27Not mentioned\x27:\n\n{text}"),
   ("phytochemicals", "List all phytochemicals present in the medicinal plants mentioned in the following text. If not available, respond with \x27Not mentioned\x27:\n\n{text}"),
   ("plant_part_used", "Describe which part of the plant is used for medicinal purposes from the following text. If not available, respond with \x27Not mentioned\x27:\n\n{text}"),
   ("formulation", "Extract details about the formulation of the medicinal plants (e.g., tablets, capsules, extracts) from the following text. If not available, respond with \x27Not mentioned\x27:\n\n{text}"),
   ("botanic_description", "Provide a detailed botanical description of the plants from the following text, including physical characteristics, structure, and appearance. If not available, respond with \x27Not mentioned\x27:\n\n{text}"),
   ("toxicity", "Extract any information related to the toxicity of the medicinal plants from the following text. If not available, respond with \x27Not mentioned\x27:\n\n{text}"),
   ("adverse_reactions", "List any reported adverse reactions from the following text. If none are mentioned, respond with \x27Not mentioned\x27:\n\n{text}"),
   ("health_benefits", "Describe any health benefits offered by the medicinal plants from the following text. If no benefits are mentioned, respond with \x27Not mentioned\x27:\n\n{text}"),
   ("nutritional_benefits", "Extract any nutritional benefits provided by the medicinal plants from the following text. If not applicable, respond with \x27Not mentioned\x27:\n\n{text}"),
   ("reference", "Extract citation information (title, author(s), year, journal, volume, issue, pages, DOI) and format it as an APA 7th edition reference from the following text. If not available, respond with \x27Not mentioned\x27:\n\n{text}")]

/-- Python `dict.get(k, dflt)` over an ordered key/value list. -/
def getD (d : List (String × String)) (k dflt : String) : String :=
  match d.find? (fun p => p.1 == k) with
  | some p => p.2
  | none => dflt

/-- One iteration of the extraction loop body: invoke the chain on the field's
prompt and keep `result.strip()`; on any exception a warning is printed and the
field is set to the fixed fallback string "Not mentioned" (line 130). -/
def extract_field (llm : Oracle) (paper_text template : String) : String :=
  match llm (formatPrompt template paper_text) with
  | Except.ok result => pyStrip result
  | Except.error _ => "Not mentioned"

/-- The `extracted_fields` dict built by the loop of
`extract_initial_information`, in insertion order. -/
def extract_fields (llm : Oracle) (paper_text : String) : List (String × String) :=
  extraction_prompts.map (fun p => (p.1, extract_field llm paper_text p.2))

/-- The `HerbExtractionResult(...)` construction at the end of
`extract_initial_information` (lines 133-150), with its per-field
`extracted_fields.get(name, default)` fallbacks. -/
def mk_result (ef : List (String × String)) : HerbExtractionResult where
  title := getD ef "title" "Not available"
  authors := getD ef "authors" "Not available"
  year := getD ef "year" "Not available"
  scientific_name := getD ef "scientific_name" "Not mentioned"
  medicinal_use := getD ef "medicinal_use" "Not mentioned"
  biological_activity := getD ef "biological_activity" "Not mentioned"
  dose := getD ef "dose" "Not mentioned"
  phytochemicals := getD ef "phytochemicals" "Not mentioned"
  plant_part_used := getD ef "plant_part_used" "Not mentioned"
  formulation := getD ef "formulation" "Not mentioned"
  botanic_description := getD ef "botanic_description" "Not mentioned"
  toxicity := getD ef "toxicity" "Not mentioned"
  adverse_reactions := getD ef "adverse_reactions" "Not mentioned"
  health_benefits := getD ef "health_benefits" "Not mentioned"
  nutritional_benefits := getD ef "nutritional_benefits" "Not mentioned"
  reference := getD ef "reference" "Not mentioned"

/-- Step 1 of the chain: `extract_initial_information`. -/
def extract_initial_information (llm : Oracle) (paper_text : String) : HerbExtractionResult :=
  mk_result (extract_fields llm paper_text)

/-- The loop body of `validate_extraction` (lines 170-187): three-tier
classification of one field value. -/
def validate_field (field_name value : String) : FieldValidation :=
  if value = "Not mentioned" ∨ value = "Not available" ∨ value = "" then
    { field_name := field_name, value := value,
      status := ExtractionStatus.MISSING, confidence := 0 }
  else if (pyStrip value).length < 5 then
    { field_name := field_name, value := value,
      status := ExtractionStatus.PARTIAL, confidence := 3/10 }
  else
    { field_name := field_name, value := value,
      status := ExtractionStatus.COMPLETE, confidence := 9/10 }

/-- Step 2 of the chain: `validate_extraction`, iterating over
`extraction.to_dict().items()` and producing the `validations` dict
(insertion order preserved). -/
def validate_extraction (extraction : HerbExtractionResult) : List (String × FieldValidation) :=
  extraction.to_dict.map (fun p => (p.1, validate_field p.1 p.2))

/-- `get_missing_fields`: collect the names of fields whose status is MISSING
or PARTIAL, in iteration (= schema) order. -/
def get_missing_fields (validations : List (String × FieldValidation)) : List String :=
  validations.foldl
    (fun missing p =>
      if p.2.status = ExtractionStatus.MISSING ∨ p.2.status = ExtractionStatus.PARTIAL then
        missing ++ [p.1]
      else missing)
    []

/-- Lookup of one field's entry in a validation report. -/
def lookupValidation (validations : List (String × FieldValidation)) (f : String) :
    Option FieldValidation :=
  (validations.find? (fun p => p.1 == f)).map Prod.snd

/-- The `re_extraction_prompts` dict of `re_extract_missing_fields`
(13 entries: title, authors and biological_activity have no repair prompt). -/
def re_extraction_prompts : List (String × String) :=
  [("scientific_name", "Please carefully re-read the following text and extract ALL scientific names of medicinal plants. Look for binomial nomenclature (Genus species). Provide a comprehensive list:\n\n{text}"),
   ("year", "Please carefully re-read the following text and extract the publication year. Look for any mention of when this work was published or conducted:\n\n{text}"),
   ("medicinal_use", "Please carefully re-read the following text and provide detailed information about medicinal uses. How are these herbs used to treat, prevent, or manage diseases:\n\n{text}"),
   ("dose", "Please carefully re-read the following text and extract ALL dosage information mentioned. Include amounts, units, frequency, and administration routes:\n\n{text}"),
   ("phytochemicals", "Please carefully re-read the following text and list ALL phytochemicals, active compounds, or chemical constituents mentioned:\n\n{text}"),
   ("plant_part_used", "Please carefully re-read the following text and describe which specific parts of the plant are used (root, leaf, stem, flower, seed, etc.):\n\n{text}"),
   ("formulation", "Please carefully re-read the following text and extract details about how these plants are formulated (tablets, capsules, extracts, powders, teas, etc.):\n\n{text}"),
   ("botanic_description", "Please carefully re-read the following text and provide a detailed botanical description including physical characteristics, structure, appearance, and growth habits:\n\n{text}"),
   ("toxicity", "Please carefully re-read the following text and extract any information about toxicity, safety profiles, or toxic effects:\n\n{text}"),
   ("adverse_reactions", "Please carefully re-read the following text and list any adverse reactions, side effects, or contraindications mentioned:\n\n{text}"),
   ("health_benefits", "Please carefully re-read the following text and describe all health benefits mentioned for these medicinal plants:\n\n{text}"),
   ("nutritional_benefits", "Please carefully re-read the following text and extract information about nutritional benefits, vitamins, minerals, or nutritional value:\n\n{text}"),
   ("reference", "Please carefully re-read the following text and extract complete citation information (title, authors, year, journal, volume, issue, pages, DOI). Format this as an APA 7th edition reference:\n\n{text}")]

/-- The acceptance test of line 247:
`result and result.strip() and result.strip().lower() not in ("not mentioned", "not available", "")`. -/
def acceptCond (result : String) : Bool :=
  result != "" && pyStrip result != "" &&
    !((["not mentioned", "not available", ""] : List String).contains (pyLower (pyStrip result)))

/-- `setattr(updated_extraction, field, v)` for the known schema fields;
an unknown name leaves the record's schema slots untouched. -/
def setField (r : HerbExtractionResult) (f v : String) : HerbExtractionResult :=
  if f = "title" then { r with title := v }
  else if f = "authors" then { r with authors := v }
  else if f = "year" then { r with year := v }
  else if f = "scientific_name" then { r with scientific_name := v }
  else if f = "medicinal_use" then { r with medicinal_use := v }
  else if f = "biological_activity" then { r with biological_activity := v }
  else if f = "dose" then { r with dose := v }
  else if f = "phytochemicals" then { r with phytochemicals := v }
  else if f = "plant_part_used" then { r with plant_part_used := v }
  else if f = "formulation" then { r with formulation := v }
  else if f = "botanic_description" then { r with botanic_description := v }
  else if f = "toxicity" then { r with toxicity := v }
  else if f = "adverse_reactions" then { r with adverse_reactions := v }
  else if f = "health_benefits" then { r with health_benefits := v }
  else if f = "nutritional_benefits" then { r with nutritional_benefits := v }
  else if f = "reference" then { r with reference := v }
  else r

/-- `getattr(r, f)` for the known schema fields (an unknown name reads as ""). -/
def getField (r : HerbExtractionResult) (f : String) : String :=
  if f = "title" then r.title
  else if f = "authors" then r.authors
  else if f = "year" then r.year
  else if f = "scientific_name" then r.scientific_name
  else if f = "medicinal_use" then r.medicinal_use
  else if f = "biological_activity" then r.biological_activity
  else if f = "dose" then r.dose
  else if f = "phytochemicals" then r.phytochemicals
  else if f = "plant_part_used" then r.plant_part_used
  else if f = "formulation" then r.formulation
  else if f = "botanic_description" then r.botanic_description
  else if f = "toxicity" then r.toxicity
  else if f = "adverse_reactions" then r.adverse_reactions
  else if f = "health_benefits" then r.health_benefits
  else if f = "nutritional_benefits" then r.nutritional_benefits
  else if f = "reference" then r.reference
  else ""

/-- One iteration of the repair loop of `re_extract_missing_fields`
(lines 238-251): skip fields without a repair prompt, invoke the chain,
accept the trimmed result under `acceptCond`, and swallow any exception. -/
def re_extract_field (llm : Oracle) (paper_text : String)
    (r : HerbExtractionResult) (field : String) : HerbExtractionResult :=
  match re_extraction_prompts.find? (fun q => q.1 == field) with
  | none => r
  | some p =>
    match llm (formatPrompt p.2 paper_text) with
    | Except.error _ => r
    | Except.ok result =>
      if acceptCond result then setField r field (pyStrip result) else r

/-- Step 3 of the chain: `re_extract_missing_fields` (the initial
`HerbExtractionResult(**initial_extraction.to_dict())` copy is the fold's
starting value). -/
def re_extract_missing_fields (llm : Oracle) (paper_text : String)
    (missing_fields : List String) (initial_extraction : HerbExtractionResult) :
    HerbExtractionResult :=
  missing_fields.foldl (re_extract_field llm paper_text) initial_extraction

/-- The pipeline driver `extract_herb_information` (verbose printing and the
purely informational final validation pass are elided). -/
def extract_herb_information (llm : Oracle) (paper_text : String) : HerbExtractionResult :=
  let extraction := extract_initial_information llm paper_text
  let validations := validate_extraction extraction
  let missing_fields := get_missing_fields validations
  if missing_fields = [] then extraction
  else re_extract_missing_fields llm paper_text missing_fields extraction

/-- Python `try body except: fallback`, in the exception monad. -/
def pyTry {α : Type} (body : Except String α) (fallback : α) : Except String α :=
  match body with
  | Except.ok a => Except.ok a
  | Except.error _ => Except.ok fallback

/-- The extraction loop in the exception monad: an uncaught exception would
abort the remaining fields and propagate (`Except.error`); the per-field
`try/except` of lines 120-130 is `pyTry` with fallback "Not mentioned". -/
def extract_fields_exn (llm : Oracle) (paper_text : String) :
    List (String × String) → List (String × String) → Except String (List (String × String))
  | acc, [] => Except.ok acc
  | acc, p :: rest =>
    match pyTry (Except.bind (llm (formatPrompt p.2 paper_text))
        (fun result => Except.ok (pyStrip result))) "Not mentioned" with
    | Except.ok v => extract_fields_exn llm paper_text (acc ++ [(p.1, v)]) rest
    | Except.error e => Except.error e

/-- The repair loop in the exception monad: the per-field `try/except` of
lines 240-250 leaves the record unchanged on failure. -/
def re_extract_exn (llm : Oracle) (paper_text : String) :
    HerbExtractionResult → List String → Except String HerbExtractionResult
  | r, [] => Except.ok r
  | r, field :: rest =>
    match re_extraction_prompts.find? (fun q => q.1 == field) with
    | none => re_extract_exn llm paper_text r rest
    | some p =>
      match pyTry (Except.bind (llm (formatPrompt p.2 paper_text))
          (fun result => Except.ok
            (if acceptCond result then setField r field (pyStrip result) else r))) r with
      | Except.ok r2 => re_extract_exn llm paper_text r2 rest
      | Except.error e => Except.error e

/-- The whole pipeline in the exception monad: any exception escaping a stage
would surface to the caller as `Except.error`. -/
def extract_herb_information_exn (llm : Oracle) (paper_text : String) :
    Except String HerbExtractionResult :=
  Except.bind (extract_fields_exn llm paper_text [] extraction_prompts)
    (fun ef =>
      let extraction := mk_result ef
      let missing_fields := get_missing_fields (validate_extraction extraction)
      if missing_fields = [] then Except.ok extraction
      else re_extract_exn llm paper_text extraction missing_fields)

/-- The record every field of which is the fixed fallback "Not mentioned". -/
def allNM : HerbExtractionResult where
  title := "Not mentioned"
  authors := "Not mentioned"
  year := "Not mentioned"
  scientific_name := "Not mentioned"
  medicinal_use := "Not mentioned"
  biological_activity := "Not mentioned"
  dose := "Not mentioned"
  phytochemicals := "Not mentioned"
  plant_part_used := "Not mentioned"
  formulation := "Not mentioned"
  botanic_description := "Not mentioned"
  toxicity := "Not mentioned"
  adverse_reactions := "Not mentioned"
  health_benefits := "Not mentioned"
  nutritional_benefits := "Not mentioned"
  reference := "Not mentioned"

/-! Helper lemmas: the exception-monad versions of the loops never surface an
error (every fallible step sits inside a per-field `pyTry`), and the frame
behaviour of `setField`/`getField`. -/

/-- The extraction loop in the exception monad always succeeds and agrees with
the direct fold. -/
lemma extract_fields_exn_ok (llm : Oracle) (doc : String) (l acc : List (String × String)) :
    extract_fields_exn llm doc acc l =
      Except.ok (acc ++ l.map (fun p => (p.1, extract_field llm doc p.2))) := by
  induction l generalizing acc with
  | nil => simp [extract_fields_exn]
  | cons p rest ih =>
    have hstep : pyTry (Except.bind (llm (formatPrompt p.2 doc))
        (fun result => Except.ok (pyStrip result))) "Not mentioned" =
        Except.ok (extract_field llm doc p.2) := by
      cases h : llm (formatPrompt p.2 doc) <;>
        simp [pyTry, extract_field, h, Except.bind]
    simp only [extract_fields_exn, hstep]
    rw [ih]
    simp

/-- The repair loop in the exception monad always succeeds and agrees with the
direct fold. -/
lemma re_extract_exn_ok (llm : Oracle) (doc : String) (l : List String)
    (r : HerbExtractionResult) :
    re_extract_exn llm doc r l =
      Except.ok (l.foldl (re_extract_field llm doc) r) := by
  induction l generalizing r with
  | nil => simp [re_extract_exn]
  | cons f rest ih =>
    simp only [re_extract_exn, List.foldl_cons]
    cases hfind : re_extraction_prompts.find? (fun q => q.1 == f) with
    | none =>
      rw [show re_extract_field llm doc r f = r by simp [re_extract_field, hfind]]
      exact ih r
    | some p =>
      cases hllm : llm (formatPrompt p.2 doc) with
      | error e =>
        simp only [pyTry, hllm, Except.bind]
        rw [show re_extract_field llm doc r f = r by simp [re_extract_field, hfind, hllm]]
        exact ih r
      | ok result =>
        simp only [pyTry, hllm, Except.bind]
        rw [show (if acceptCond result then setField r f (pyStrip result) else r) =
              re_extract_field llm doc r f by simp [re_extract_field, hfind, hllm]]
        exact ih _

/-- The exception-monad pipeline always returns `Except.ok` of the plain
pipeline result: no per-field failure ever escapes to the caller. -/
lemma pipeline_exn_eq (llm : Oracle) (doc : String) :
    extract_herb_information_exn llm doc =
      Except.ok (extract_herb_information llm doc) := by
  unfold extract_herb_information_exn extract_herb_information
      extract_initial_information
  rw [extract_fields_exn_ok]
  simp only [List.nil_append, Except.bind]
  rw [show extraction_prompts.map (fun p => (p.1, extract_field llm doc p.2)) =
        extract_fields llm doc from rfl]
  by_cases h : get_missing_fields (validate_extraction (mk_result (extract_fields llm doc))) = []
  · simp [h]
  · simp [h, re_extract_missing_fields, re_extract_exn_ok]

/-- Writing one field slot leaves every other slot unchanged. -/
lemma getField_setField_ne (r : HerbExtractionResult) (v : String) {f g : String}
    (h : f ≠ g) : getField (setField r g v) f = getField r f := by
  by_cases h1 : g = "title"
  · subst h1; simp [setField, getField, h]
  by_cases h2 : g = "authors"
  · subst h2; simp [setField, getField, h]
  by_cases h3 : g = "year"
  · subst h3; simp [setField, getField, h]
  by_cases h4 : g = "scientific_name"
  · subst h4; simp [setField, getField, h]
  by_cases h5 : g = "medicinal_use"
  · subst h5; simp [setField, getField, h]
  by_cases h6 : g = "biological_activity"
  · subst h6; simp [setField, getField, h]
  by_cases h7 : g = "dose"
  · subst h7; simp [setField, getField, h]
  by_cases h8 : g = "phytochemicals"
  · subst h8; simp [setField, getField, h]
  by_cases h9 : g = "plant_part_used"
  · subst h9; simp [setField, getField, h]
  by_cases h10 : g = "formulation"
  · subst h10; simp [setField, getField, h]
  by_cases h11 : g = "botanic_description"
  · subst h11; simp [setField, getField, h]
  by_cases h12 : g = "toxicity"
  · subst h12; simp [setField, getField, h]
  by_cases h13 : g = "adverse_reactions"
  · subst h13; simp [setField, getField, h]
  by_cases h14 : g = "health_benefits"
  · subst h14; simp [setField, getField, h]
  by_cases h15 : g = "nutritional_benefits"
  · subst h15; simp [setField, getField, h]
  by_cases h16 : g = "reference"
  · subst h16; simp [setField, getField, h]
  simp [setField, h1, h2, h3, h4, h5, h6, h7, h8, h9, h10, h11, h12, h13, h14, h15, h16]

/-- Writing a known field slot and reading it back yields the written value. -/
lemma getField_setField_self (r : HerbExtractionResult) (v : String) {f : String}
    (h : f ∈ field_names) : getField (setField r f v) f = v := by
  simp only [field_names, List.mem_cons, List.not_mem_nil, or_false] at h
  rcases h with rfl|rfl|rfl|rfl|rfl|rfl|rfl|rfl|rfl|rfl|rfl|rfl|rfl|rfl|rfl|rfl <;>
    simp [getField, setField]

/-- Every key of the repair-prompt table is a schema field name. -/
lemma repair_keys_sub : ∀ p ∈ re_extraction_prompts, p.1 ∈ field_names := by decide

/-- `re_extract_field` when the field has no repair prompt. -/
lemma re_extract_field_eq_none (llm : Oracle) (doc : String) (r : HerbExtractionResult)
    {g : String} (hfind : re_extraction_prompts.find? (fun q => q.1 == g) = none) :
    re_extract_field llm doc r g = r := by
  simp [re_extract_field, hfind]

/-- `re_extract_field` when the generation call raises. -/
lemma re_extract_field_eq_err (llm : Oracle) (doc : String) (r : HerbExtractionResult)
    {g : String} {p : String × String} {e : String}
    (hfind : re_extraction_prompts.find? (fun q => q.1 == g) = some p)
    (hllm : llm (formatPrompt p.2 doc) = Except.error e) :
    re_extract_field llm doc r g = r := by
  simp [re_extract_field, hfind, hllm]

/-- `re_extract_field` when the generation call succeeds. -/
lemma re_extract_field_eq_ok (llm : Oracle) (doc : String) (r : HerbExtractionResult)
    {g : String} {p : String × String} {res : String}
    (hfind : re_extraction_prompts.find? (fun q => q.1 == g) = some p)
    (hllm : llm (formatPrompt p.2 doc) = Except.ok res) :
    re_extract_field llm doc r g =
      (if acceptCond res then setField r g (pyStrip res) else r) := by
  simp [re_extract_field, hfind, hllm]

/-- One repair step changes a slot only when it is the processed field and the
new value passed the acceptance test; the accepted value is the trimmed
response. -/
lemma re_extract_field_frame (llm : Oracle) (doc : String) (r : HerbExtractionResult)
    (g f : String) :
    getField (re_extract_field llm doc r g) f = getField r f ∨
    (f = g ∧ ∃ tpl res,
      re_extraction_prompts.find? (fun q => q.1 == f) = some (f, tpl) ∧
      llm (formatPrompt tpl doc) = Except.ok res ∧ acceptCond res = true ∧
      getField (re_extract_field llm doc r g) f = pyStrip res) := by
  cases hfind : re_extraction_prompts.find? (fun q => q.1 == g) with
  | none => exact Or.inl (by rw [re_extract_field_eq_none llm doc r hfind])
  | some p =>
    cases hllm : llm (formatPrompt p.2 doc) with
    | error e => exact Or.inl (by rw [re_extract_field_eq_err llm doc r hfind hllm])
    | ok res =>
      have heq := re_extract_field_eq_ok llm doc r hfind hllm
      by_cases hac : acceptCond res
      · rw [if_pos hac] at heq
        by_cases hfg : f = g
        · subst hfg
          have hp1 : p.1 = f := by
            have := List.find?_some hfind
            simpa using this
          have hmem : p ∈ re_extraction_prompts := List.mem_of_find?_eq_some hfind
          have hfn : f ∈ field_names := hp1 ▸ repair_keys_sub p hmem
          refine Or.inr ⟨rfl, p.2, res, ?_, hllm, hac, ?_⟩
          · rw [show ((f, p.2) : String × String) = p from by rw [← hp1]]
            exact hfind
          · rw [heq]
            exact getField_setField_self r (pyStrip res) hfn
        · rw [heq]
          exact Or.inl (getField_setField_ne r (pyStrip res) hfg)
      · rw [if_neg hac] at heq
        rw [heq]
        exact Or.inl rfl

/-- The whole repair fold changes a slot only through an accepted response for
that very field. -/
lemma re_extract_foldl_frame (llm : Oracle) (doc : String) (l : List String)
    (r : HerbExtractionResult) (f : String) :
    getField (l.foldl (re_extract_field llm doc) r) f = getField r f ∨
    (f ∈ l ∧ ∃ tpl res,
      re_extraction_prompts.find? (fun q => q.1 == f) = some (f, tpl) ∧
      llm (formatPrompt tpl doc) = Except.ok res ∧ acceptCond res = true ∧
      getField (l.foldl (re_extract_field llm doc) r) f = pyStrip res) := by
  induction l generalizing r with
  | nil => exact Or.inl rfl
  | cons g rest ih =>
    rw [List.foldl_cons]
    rcases ih (re_extract_field llm doc r g) with hL | ⟨hmem, tpl, res, h1, h2, h3, h4⟩
    · rcases re_extract_field_frame llm doc r g f with hL2 | ⟨hfg, tpl, res, h1, h2, h3, h4⟩
      · exact Or.inl (by rw [hL, hL2])
      · exact Or.inr ⟨by simp [hfg], tpl, res, h1, h2, h3, by rw [hL, h4]⟩
    · exact Or.inr ⟨List.mem_cons_of_mem g hmem, tpl, res, h1, h2, h3, h4⟩

/-- The accumulator form of `get_missing_fields` is filtering followed by
projection to the field name. -/
lemma get_missing_fields_foldl (l : List (String × FieldValidation)) (acc : List String) :
    l.foldl
      (fun missing p =>
        if p.2.status = ExtractionStatus.MISSING ∨ p.2.status = ExtractionStatus.PARTIAL then
          missing ++ [p.1]
        else missing) acc
    = acc ++ (l.filter (fun p =>
        decide (p.2.status = ExtractionStatus.MISSING ∨
          p.2.status = ExtractionStatus.PARTIAL))).map Prod.fst := by
  induction l generalizing acc with
  | nil => simp
  | cons p rest ih =>
    by_cases h : p.2.status = ExtractionStatus.MISSING ∨ p.2.status = ExtractionStatus.PARTIAL
    · simp [List.foldl_cons, List.filter_cons, h, ih]
    · simp [List.foldl_cons, List.filter_cons, h, ih]

/-- Claim C1, counterexample: with a generation service that always fails,
the extracted value of the `title` field is the fixed fallback
"Not mentioned", which differs from the configured sentinel of that field
("Not available", the default of `extracted_fields.get("title", ...)` and the
fallback named in the title prompt). So a failing call does NOT produce the
field-specific sentinel claimed. -/
theorem claim_C1_counterexample :
    getField (extract_initial_information (fun _ => Except.error "boom") "some paper text")
        "title" = "Not mentioned" ∧
    ("Not mentioned" : String) ≠ "Not available" := by
  decide

/-- Claim C1, amended: if the generation call for a field fails during
extraction, that field holds the fixed string "Not mentioned" regardless of
the field-specific sentinel; in particular, if the service always fails,
every field of the result equals "Not mentioned". -/
theorem claim_C1_amended :
    (∀ (llm : Oracle) (doc f tpl : String), (f, tpl) ∈ extraction_prompts →
      (∃ e, llm (formatPrompt tpl doc) = Except.error e) →
      getField (extract_initial_information llm doc) f = "Not mentioned") ∧
    (∀ (llm : Oracle) (doc : String), (∀ prompt, ∃ e, llm prompt = Except.error e) →
      extract_initial_information llm doc = allNM) := by
  constructor
  · intro llm doc f tpl hmem herr
    obtain ⟨e, he⟩ := herr
    simp only [extraction_prompts, List.mem_cons, List.not_mem_nil, or_false,
      Prod.mk.injEq] at hmem
    rcases hmem with h|h|h|h|h|h|h|h|h|h|h|h|h|h|h|h <;>
      obtain ⟨rfl, rfl⟩ := h <;>
      simp [extract_initial_information, extract_fields, extraction_prompts, mk_result,
        getD, getField, List.find?, extract_field, he]
  · intro llm doc h
    have hf : ∀ t, extract_field llm doc t = "Not mentioned" := by
      intro t
      obtain ⟨e, he⟩ := h (formatPrompt t doc)
      simp [extract_field, he]
    simp [extract_initial_information, extract_fields, extraction_prompts, mk_result,
      getD, List.find?, hf, allNM]

/-- Claim C1, witness: concrete instance of the amended per-field statement at
the `year` field with a failing service. -/
theorem claim_C1_witness :
    getField (extract_initial_information (fun _ => Except.error "down") "paper") "year" =
      "Not mentioned" :=
  claim_C1_amended.1 (fun _ => Except.error "down") "paper" "year" _
    (List.mem_cons_of_mem _ (List.mem_cons_of_mem _ (List.mem_cons_self _ _)))
    ⟨"down", rfl⟩

/-- Claim C2: every entry of a validation report is in exactly one of three
tiers: MISSING with confidence 0 iff the raw value is "Not mentioned",
"Not available" or empty; else PARTIAL with confidence 3/10 iff the trimmed
value is shorter than 5 characters; else COMPLETE with confidence 9/10. -/
theorem claim_C2 (extraction : HerbExtractionResult) (pr : String × FieldValidation)
    (hmem : pr ∈ validate_extraction extraction) :
    ((pr.2.status = ExtractionStatus.MISSING ∧ pr.2.confidence = 0) ↔
      (pr.2.value = "Not mentioned" ∨ pr.2.value = "Not available" ∨ pr.2.value = "")) ∧
    ((pr.2.status = ExtractionStatus.PARTIAL ∧ pr.2.confidence = 3/10) ↔
      (¬(pr.2.value = "Not mentioned" ∨ pr.2.value = "Not available" ∨ pr.2.value = "") ∧
        (pyStrip pr.2.value).length < 5)) ∧
    ((pr.2.status = ExtractionStatus.COMPLETE ∧ pr.2.confidence = 9/10) ↔
      (¬(pr.2.value = "Not mentioned" ∨ pr.2.value = "Not available" ∨ pr.2.value = "") ∧
        5 ≤ (pyStrip pr.2.value).length)) := by
  simp only [validate_extraction, List.mem_map] at hmem
  obtain ⟨a, ha, rfl⟩ := hmem
  dsimp only
  unfold validate_field
  split_ifs with hs hl
  · refine ⟨by simp [hs], by simp [hs], by simp [hs]⟩
  · refine ⟨by simp [hs], by simp [hs, hl], ?_⟩
    constructor
    · rintro ⟨h1, -⟩
      exact absurd h1 (by simp)
    · rintro ⟨-, hge⟩
      dsimp only at hge
      omega
  · rw [Nat.not_lt] at hl
    refine ⟨by simp [hs], ?_, by simp [hs, hl]⟩
    constructor
    · rintro ⟨h1, -⟩
      exact absurd h1 (by simp)
    · rintro ⟨-, hlt⟩
      dsimp only at hlt
      omega

/-- Claim C2, witness: the tier equivalences instantiated at the report entry
for a record whose `title` is the sentinel "Not mentioned". -/
theorem claim_C2_witness :
    (((validate_field "title" "Not mentioned").status = ExtractionStatus.MISSING ∧
        (validate_field "title" "Not mentioned").confidence = 0) ↔
      ((validate_field "title" "Not mentioned").value = "Not mentioned" ∨
        (validate_field "title" "Not mentioned").value = "Not available" ∨
        (validate_field "title" "Not mentioned").value = "")) ∧
    (((validate_field "title" "Not mentioned").status = ExtractionStatus.PARTIAL ∧
        (validate_field "title" "Not mentioned").confidence = 3/10) ↔
      (¬((validate_field "title" "Not mentioned").value = "Not mentioned" ∨
          (validate_field "title" "Not mentioned").value = "Not available" ∨
          (validate_field "title" "Not mentioned").value = "") ∧
        (pyStrip (validate_field "title" "Not mentioned").value).length < 5)) ∧
    (((validate_field "title" "Not mentioned").status = ExtractionStatus.COMPLETE ∧
        (validate_field "title" "Not mentioned").confidence = 9/10) ↔
      (¬((validate_field "title" "Not mentioned").value = "Not mentioned" ∨
          (validate_field "title" "Not mentioned").value = "Not available" ∨
          (validate_field "title" "Not mentioned").value = "") ∧
        5 ≤ (pyStrip (validate_field "title" "Not mentioned").value).length)) :=
  claim_C2 allNM ("title", validate_field "title" "Not mentioned") (by decide)

/-- Claim C3: during repair, a successfully generated value replaces the
selected field iff it is non-empty after trimming and its lower-cased trimmed
form is none of the markers "not mentioned", "not available", ""; the stored
value is then the trimmed response, otherwise the record is unchanged. -/
theorem claim_C3 (llm : Oracle) (doc : String) (r : HerbExtractionResult)
    (field tpl result : String)
    (hfind : re_extraction_prompts.find? (fun q => q.1 == field) = some (field, tpl))
    (hllm : llm (formatPrompt tpl doc) = Except.ok result) :
    (pyStrip result ≠ "" ∧
        pyLower (pyStrip result) ∉ (["not mentioned", "not available", ""] : List String) →
      re_extract_field llm doc r field = setField r field (pyStrip result)) ∧
    (¬(pyStrip result ≠ "" ∧
        pyLower (pyStrip result) ∉ (["not mentioned", "not available", ""] : List String)) →
      re_extract_field llm doc r field = r) := by
  have heq := re_extract_field_eq_ok llm doc r hfind hllm
  have himp : pyStrip result ≠ "" → result ≠ "" := by
    intro h hr
    apply h
    rw [hr]
    rfl
  have hiff : acceptCond result = true ↔
      (pyStrip result ≠ "" ∧
        pyLower (pyStrip result) ∉ (["not mentioned", "not available", ""] : List String)) := by
    simp only [acceptCond, Bool.and_eq_true, bne_iff_ne, Bool.not_eq_true',
      ← Bool.not_eq_true, List.contains, List.elem_iff]
    constructor
    · rintro ⟨⟨-, h2⟩, h3⟩
      exact ⟨h2, h3⟩
    · rintro ⟨h2, h3⟩
      exact ⟨⟨himp h2, h2⟩, h3⟩
  constructor
  · intro hc
    rw [heq, if_pos (hiff.mpr hc)]
  · intro hc
    rw [heq, if_neg (fun h => hc (hiff.mp h))]

/-- Claim C3, witness: an accepted repair response " Curcuma longa " is stored
trimmed in the selected field. -/
theorem claim_C3_witness :
    re_extract_field (fun _ => Except.ok " Curcuma longa ") "paper" allNM "scientific_name" =
      setField allNM "scientific_name" "Curcuma longa" :=
  (claim_C3 (fun _ => Except.ok " Curcuma longa ") "paper" allNM "scientific_name" _
      " Curcuma longa " rfl rfl).1 (by decide)

/-- Claim C4, counterexample: handed the empty document, the pipeline does NOT
fail with a caller-visible error; with an always-failing service it silently
returns the all-"Not mentioned" record. The code performs no input
validation. -/
theorem claim_C4_counterexample :
    extract_herb_information_exn (fun _ => Except.error "service unavailable") "" =
      Except.ok allNM := by
  rfl

/-- Claim C4, amended: the pipeline performs no input validation: on an empty
document it proceeds like on any other and returns a full record (with no
error surfaced to the caller) for every behaviour of the generation
service. -/
theorem claim_C4_amended (llm : Oracle) :
    ∃ r : HerbExtractionResult, extract_herb_information_exn llm "" = Except.ok r ∧
      r.to_dict.map Prod.fst = field_names :=
  ⟨extract_herb_information llm "", pipeline_exn_eq llm "", rfl⟩

/-- Claim C5: repair never touches a field outside `fieldsToFix`, never touches
a field without a configured repair prompt, and every field after repair holds
either its pre-repair value or a trimmed response accepted by the acceptance
test. -/
theorem claim_C5 (llm : Oracle) (doc : String) (fieldsToFix : List String)
    (r : HerbExtractionResult) :
    (∀ f, f ∉ fieldsToFix →
      getField (re_extract_missing_fields llm doc fieldsToFix r) f = getField r f) ∧
    (∀ f, re_extraction_prompts.find? (fun q => q.1 == f) = none →
      getField (re_extract_missing_fields llm doc fieldsToFix r) f = getField r f) ∧
    (∀ f, getField (re_extract_missing_fields llm doc fieldsToFix r) f = getField r f ∨
      ∃ tpl res, re_extraction_prompts.find? (fun q => q.1 == f) = some (f, tpl) ∧
        llm (formatPrompt tpl doc) = Except.ok res ∧ acceptCond res = true ∧
        getField (re_extract_missing_fields llm doc fieldsToFix r) f = pyStrip res) := by
  refine ⟨?_, ?_, ?_⟩
  · intro f hf
    rcases re_extract_foldl_frame llm doc fieldsToFix r f with h | ⟨hmem, -⟩
    · exact h
    · exact absurd hmem hf
  · intro f hnone
    rcases re_extract_foldl_frame llm doc fieldsToFix r f with h | ⟨-, tpl, res, h1, -⟩
    · exact h
    · rw [hnone] at h1
      exact absurd h1 (by simp)
  · intro f
    rcases re_extract_foldl_frame llm doc fieldsToFix r f with h | ⟨-, tpl, res, h1, h2, h3, h4⟩
    · exact Or.inl h
    · exact Or.inr ⟨tpl, res, h1, h2, h3, h4⟩

/-- Claim C5, witness: `title` is unchanged both when it is not selected for
repair and when it is selected but has no repair prompt. -/
theorem claim_C5_witness :
    getField (re_extract_missing_fields (fun _ => Except.ok "a long detailed answer") "paper"
        ["dose"] allNM) "title" = getField allNM "title" ∧
    getField (re_extract_missing_fields (fun _ => Except.ok "a long detailed answer") "paper"
        ["title"] allNM) "title" = getField allNM "title" :=
  ⟨(claim_C5 (fun _ => Except.ok "a long detailed answer") "paper" ["dose"] allNM).1
      "title" (by decide),
   (claim_C5 (fun _ => Except.ok "a long detailed answer") "paper" ["title"] allNM).2.1
      "title" (by decide)⟩

/-- Claim C6: for every service behaviour and document, the extracted record
(and the records after validation and after repair, and the pipeline result)
carries exactly the 16 schema field names as key set, each holding a string. -/
theorem claim_C6 (llm : Oracle) (doc : String) :
    (extract_initial_information llm doc).to_dict.map Prod.fst = field_names ∧
    field_names.length = 16 ∧
    (validate_extraction (extract_initial_information llm doc)).map Prod.fst =
      (extract_initial_information llm doc).to_dict.map Prod.fst ∧
    (∀ (fields : List String) (r : HerbExtractionResult),
      (re_extract_missing_fields llm doc fields r).to_dict.map Prod.fst = field_names) ∧
    (extract_herb_information llm doc).to_dict.map Prod.fst = field_names :=
  ⟨rfl, rfl, rfl, fun _ _ => rfl, rfl⟩

/-- Claim C7: for every pattern of per-field generation failures (any oracle),
the exception-monad pipeline returns `Except.ok` — no per-field failure
escalates to the caller or aborts the remaining fields — and the returned
record populates all 16 fields. -/
theorem claim_C7 (llm : Oracle) (doc : String) :
    extract_herb_information_exn llm doc = Except.ok (extract_herb_information llm doc) ∧
    (extract_herb_information llm doc).to_dict.length = 16 :=
  ⟨pipeline_exn_eq llm doc, rfl⟩

/-- Claim C8: `get_missing_fields` is exactly the MISSING-or-PARTIAL entries in
report (= schema) order, and the orchestrator invokes repair iff that list is
non-empty, returning the initial extraction unchanged when it is empty. -/
theorem claim_C8 :
    (∀ validations : List (String × FieldValidation),
      get_missing_fields validations =
        (validations.filter (fun p =>
          decide (p.2.status = ExtractionStatus.MISSING ∨
            p.2.status = ExtractionStatus.PARTIAL))).map Prod.fst) ∧
    (∀ (llm : Oracle) (doc : String),
      (get_missing_fields (validate_extraction (extract_initial_information llm doc)) = [] →
        extract_herb_information llm doc = extract_initial_information llm doc) ∧
      (get_missing_fields (validate_extraction (extract_initial_information llm doc)) ≠ [] →
        extract_herb_information llm doc =
          re_extract_missing_fields llm doc
            (get_missing_fields (validate_extraction (extract_initial_information llm doc)))
            (extract_initial_information llm doc))) := by
  constructor
  · intro validations
    have h := get_missing_fields_foldl validations []
    simpa [get_missing_fields] using h
  · intro llm doc
    constructor
    · intro h
      simp [extract_herb_information, h]
    · intro h
      simp [extract_herb_information, h]

/-- Claim C8, witness: with a service whose answers all validate COMPLETE, the
missing list is empty and the pipeline returns the initial extraction. -/
theorem claim_C8_witness :
    extract_herb_information (fun _ => Except.ok "a sufficiently detailed answer") "paper" =
      extract_initial_information (fun _ => Except.ok "a sufficiently detailed answer") "paper" :=
  (claim_C8.2 (fun _ => Except.ok "a sufficiently detailed answer") "paper").1 (by decide)

/-- Claim C9: a field whose generation response trims to empty is stored as the
empty string (not converted to a sentinel), and validation classifies it as
MISSING with confidence 0. -/
theorem claim_C9 (llm : Oracle) (doc f tpl s : String)
    (hmem : (f, tpl) ∈ extraction_prompts)
    (hllm : llm (formatPrompt tpl doc) = Except.ok s)
    (hs : pyStrip s = "") :
    getField (extract_initial_information llm doc) f = "" ∧
    lookupValidation (validate_extraction (extract_initial_information llm doc)) f =
      some ⟨f, "", ExtractionStatus.MISSING, 0⟩ := by
  have hef : extract_field llm doc tpl = "" := by
    simp [extract_field, hllm, hs]
  simp only [extraction_prompts, List.mem_cons, List.not_mem_nil, or_false,
    Prod.mk.injEq] at hmem
  rcases hmem with h|h|h|h|h|h|h|h|h|h|h|h|h|h|h|h <;>
    obtain ⟨rfl, rfl⟩ := h <;>
    exact ⟨by simp [extract_initial_information, extract_fields, extraction_prompts,
        mk_result, getD, getField, List.find?, hef],
      by simp [lookupValidation, validate_extraction, HerbExtractionResult.to_dict,
        extract_initial_information, extract_fields, extraction_prompts, mk_result,
        getD, List.find?, hef, validate_field]⟩

/-- Claim C9, witness: a whitespace-only response for `title` is stored as ""
and validated MISSING with confidence 0. -/
theorem claim_C9_witness :
    getField (extract_initial_information (fun _ => Except.ok "   ") "paper") "title" = "" ∧
    lookupValidation
        (validate_extraction (extract_initial_information (fun _ => Except.ok "   ") "paper"))
        "title" =
      some ⟨"title", "", ExtractionStatus.MISSING, 0⟩ :=
  claim_C9 (fun _ => Except.ok "   ") "paper" "title" _ "   "
    (List.mem_cons_self _ _) rfl (by decide)

/-- Claim C10: the validator compares the raw untrimmed value against the
sentinel set case-sensitively and only the length check trims: a non-empty
whitespace-only value is PARTIAL with confidence 3/10, and any case or
whitespace variant of a sentinel whose trimmed length is at least 5 is
COMPLETE with confidence 9/10. -/
theorem claim_C10 (f v : String) :
    (v ≠ "" → pyStrip v = "" →
      validate_field f v = ⟨f, v, ExtractionStatus.PARTIAL, 3/10⟩) ∧
    (v ≠ "Not mentioned" → v ≠ "Not available" →
      pyLower (pyStrip v) ∈ (["not mentioned", "not available"] : List String) →
      5 ≤ (pyStrip v).length →
      validate_field f v = ⟨f, v, ExtractionStatus.COMPLETE, 9/10⟩) := by
  constructor
  · intro hne hstrip
    have h1 : v ≠ "Not mentioned" := by rintro rfl; exact absurd hstrip (by decide)
    have h2 : v ≠ "Not available" := by rintro rfl; exact absurd hstrip (by decide)
    unfold validate_field
    rw [if_neg (by tauto), if_pos (by rw [hstrip]; decide)]
  · intro h1 h2 _ hlen
    have hne : v ≠ "" := by
      rintro rfl
      exact absurd hlen (by decide)
    unfold validate_field
    rw [if_neg (by tauto), if_neg (by omega)]

/-- Claim C10, witness: the whitespace-only value "   " is PARTIAL and the
sentinel variant " Not mentioned " is COMPLETE. -/
theorem claim_C10_witness :
    validate_field "dose" "   " = ⟨"dose", "   ", ExtractionStatus.PARTIAL, 3/10⟩ ∧
    validate_field "dose" " Not mentioned " =
      ⟨"dose", " Not mentioned ", ExtractionStatus.COMPLETE, 9/10⟩ :=
  ⟨(claim_C10 "dose" "   ").1 (by decide) (by decide),
   (claim_C10 "dose" " Not mentioned ").2 (by decide) (by decide) (by decide) (by decide)⟩
